import Mathlib

/-
  Verification development for the Paranoid brick-breaker game.

  Shallow embedding of the ball / paddle / brick / icon / level logic from
  assets.py and levels.py.  Python floats are modelled as rationals; the
  values returned by math.cos(math.radians a) and math.sin(math.radians a)
  are passed to the embedded functions as explicit parameters (named c and s)
  because they are the only transcendental quantities in the code.
-/

/-- Speed constant from assets.py line 28. -/
def BALL_MIN_SPEED : ℚ := 550

/-- Speed constant from assets.py line 29. -/
def BALL_MAX_SPEED : ℚ := BALL_MIN_SPEED + 300

/-- Fixed speed increment, assets.py line 78 (speed_increment = speed_decrement = 50). -/
def speed_increment : ℚ := 50

/-- Fixed speed decrement, assets.py line 78. -/
def speed_decrement : ℚ := 50

/-- State of one ball: position rectangle (center plus size, as in arcade
sprites), the velocity model (ball_speed, velocity_angle, derived change_x
and change_y) and the invincibility flag, following Ball.__init__ in
assets.py. -/
structure BallState where
  center_x : ℚ
  center_y : ℚ
  width : ℚ
  height : ℚ
  velocity_angle : ℚ
  ball_speed : ℚ
  change_x : ℚ
  change_y : ℚ
  is_invincible : Bool
deriving Repr, DecidableEq

/-- Left edge of a ball sprite (arcade: center_x - width / 2). -/
def BallState.left (b : BallState) : ℚ := b.center_x - b.width / 2

/-- Right edge of a ball sprite. -/
def BallState.right (b : BallState) : ℚ := b.center_x + b.width / 2

/-- Top edge of a ball sprite. -/
def BallState.top (b : BallState) : ℚ := b.center_y + b.height / 2

/-- Bottom edge of a ball sprite. -/
def BallState.bottom (b : BallState) : ℚ := b.center_y - b.height / 2

/-- Setting the right edge of an arcade sprite moves its center. -/
def BallState.set_right (b : BallState) (v : ℚ) : BallState :=
  { b with center_x := v - b.width / 2 }

/-- Setting the left edge of an arcade sprite moves its center. -/
def BallState.set_left (b : BallState) (v : ℚ) : BallState :=
  { b with center_x := v + b.width / 2 }

/-- Setting the top edge of an arcade sprite moves its center. -/
def BallState.set_top (b : BallState) (v : ℚ) : BallState :=
  { b with center_y := v - b.height / 2 }

/-- Setting the bottom edge of an arcade sprite moves its center. -/
def BallState.set_bottom (b : BallState) (v : ℚ) : BallState :=
  { b with center_y := v + b.height / 2 }

/-- Speed clamp from Ball.set_velocity, assets.py lines 93-94:
BALL_MAX_SPEED if speed > BALL_MAX_SPEED else BALL_MIN_SPEED if
speed < BALL_MIN_SPEED else speed. -/
def clamp_speed (x : ℚ) : ℚ :=
  if x > BALL_MAX_SPEED then BALL_MAX_SPEED
  else if x < BALL_MIN_SPEED then BALL_MIN_SPEED
  else x

/-- Ball.set_velocity (assets.py lines 88-97).  The parameters c and s are
the float values of cos and sin of the stored angle converted to radians. -/
def set_velocity (c s : ℚ) (b : BallState) : BallState :=
  { b with ball_speed := clamp_speed b.ball_speed,
           change_x := clamp_speed b.ball_speed * c,
           change_y := clamp_speed b.ball_speed * s }

/-- Geometry of the paddle as seen by Ball.change_velocity: its left edge
and its width. -/
structure PaddleGeom where
  left : ℚ
  width : ℚ
deriving Repr, DecidableEq

/-- Ball.change_velocity before its final set_velocity call (assets.py
lines 99-135): computes the new velocity_angle and ball_speed from where
the ball center lies along the paddle.  The local constants of the source
are middle = 20, lowest_angle = 25, highest_angle = 70, highest_speed = 40. -/
def change_velocity_core (p : PaddleGeom) (b : BallState) : BallState :=
  if b.center_x - p.left < p.width / 2 - 20 / 2 then
    { b with
      velocity_angle :=
        180 - (if 25 + (b.center_x - p.left) > 70 then 70 else 25 + (b.center_x - p.left)),
      ball_speed := b.ball_speed + (40 - (b.center_x - p.left)) }
  else if p.width / 2 - 20 / 2 ≤ b.center_x - p.left ∧
          b.center_x - p.left ≤ p.width / 2 + 20 / 2 then
    { b with
      velocity_angle := if b.change_x > 0 then 55 else 180 - 55,
      ball_speed := b.ball_speed - 20 }
  else
    { b with
      velocity_angle :=
        if p.width - (b.center_x - p.left) + 25 > 70 then 70
        else p.width - (b.center_x - p.left) + 25,
      ball_speed := b.ball_speed + ((b.center_x - p.left) - p.width + 40) }

/-- Ball.change_velocity (assets.py lines 99-137): the zone computation
followed by set_velocity. -/
def change_velocity (c s : ℚ) (p : PaddleGeom) (b : BallState) : BallState :=
  set_velocity c s (change_velocity_core p b)

/-- Side-of-paddle hit that launches the ball to the lower left: angle is
set to 180 + 15 and speed raised by 100, then set_velocity (assets.py
lines 272-275 and 307-311). -/
def paddle_side_hit_left (c s : ℚ) (b : BallState) : BallState :=
  set_velocity c s { b with velocity_angle := 180 + 15, ball_speed := b.ball_speed + 100 }

/-- Side-of-paddle hit that launches the ball to the lower right: angle is
set to -15 and speed raised by 100, then set_velocity (assets.py lines
278-281 and 313-318). -/
def paddle_side_hit_right (c s : ℚ) (b : BallState) : BallState :=
  set_velocity c s { b with velocity_angle := -15, ball_speed := b.ball_speed + 100 }

/-- Ball.__init__ velocity initialisation (assets.py lines 73-79): every
freshly constructed ball, including balls created by convert_to and
split_into_two, starts with velocity_angle 45 and ball_speed
BALL_MIN_SPEED and then calls set_velocity. -/
def ball_init (c s cx cy w h : ℚ) (inv : Bool) : BallState :=
  set_velocity c s
    { center_x := cx, center_y := cy, width := w, height := h,
      velocity_angle := 45, ball_speed := BALL_MIN_SPEED,
      change_x := 0, change_y := 0, is_invincible := inv }

/-- ShortenPaddleIcon drop of a magnetic ball that no longer fits on the
shrunk paddle (assets.py lines 1247-1249): ball_speed is assigned 200,
velocity_angle -90, then set_velocity runs. -/
def shorten_icon_drop (c s : ℚ) (b : BallState) : BallState :=
  set_velocity c s { b with ball_speed := 200, velocity_angle := -90 }

/-- Python expression from Ball.change_speed (assets.py lines 407-410):
if the old and the freshly recomputed component have opposite signs the
new component is negated.  The second source condition is written
(current_change_y < 0 and self.change_y) > 0 which by Python truthiness
evaluates to current_change_y < 0 and self.change_y > 0, identical in
form to the x condition. -/
def sign_fix (old new : ℚ) : ℚ :=
  if (old < 0 ∧ new > 0) ∨ (old > 0 ∧ new < 0) then -new else new

/-- Speed mutation step of Ball.change_speed (assets.py lines 400-403). -/
def apply_speed_action (action : String) (b : BallState) : BallState :=
  if action = "increase" then { b with ball_speed := b.ball_speed + speed_increment }
  else if action = "decrease" then { b with ball_speed := b.ball_speed - speed_decrement }
  else b

/-- Ball.change_speed (assets.py lines 390-410): copy the current velocity,
mutate the speed, call set_velocity, then restore the direction signs. -/
def change_speed (c s : ℚ) (action : String) (b : BallState) : BallState :=
  { set_velocity c s (apply_speed_action action b) with
    change_x := sign_fix b.change_x (set_velocity c s (apply_speed_action action b)).change_x,
    change_y := sign_fix b.change_y (set_velocity c s (apply_speed_action action b)).change_y }

/-- The clamp always lands inside the speed window. -/
theorem clamp_speed_mem (x : ℚ) :
    BALL_MIN_SPEED ≤ clamp_speed x ∧ clamp_speed x ≤ BALL_MAX_SPEED := by
  unfold clamp_speed BALL_MAX_SPEED BALL_MIN_SPEED
  split_ifs <;> constructor <;> linarith

/-- The clamped speed is strictly positive. -/
theorem clamp_speed_pos (x : ℚ) : 0 < clamp_speed x := by
  have h := (clamp_speed_mem x).1
  unfold BALL_MIN_SPEED at h
  linarith

/-- State of one brick (Brick.__init__, assets.py lines 689-709): position
rectangle, breakability, the has_been_hit latch, the safety barrier flag,
the texture stage (cur_texture_index out of num_textures images), the
score value, the optional bonus letter ("" for none), whether an icon is
still attached, and whether remove_from_sprite_lists has run. -/
structure BrickState where
  center_x : ℚ
  center_y : ℚ
  width : ℚ
  height : ℚ
  is_breakable : Bool
  has_been_hit : Bool
  is_safety_barrier : Bool
  cur_texture_index : Nat
  num_textures : Nat
  score : ℤ
  letter : String
  has_icon : Bool
  removed : Bool
deriving Repr, DecidableEq

/-- Left edge of a brick sprite. -/
def BrickState.left (br : BrickState) : ℚ := br.center_x - br.width / 2

/-- Right edge of a brick sprite. -/
def BrickState.right (br : BrickState) : ℚ := br.center_x + br.width / 2

/-- Top edge of a brick sprite. -/
def BrickState.top (br : BrickState) : ℚ := br.center_y + br.height / 2

/-- Bottom edge of a brick sprite. -/
def BrickState.bottom (br : BrickState) : ℚ := br.center_y - br.height / 2

/-- The slice of level and window state touched by the embedded operations
(levels.py Level.__init__): the window score and lives, the bonus letter
accumulator, the bonus score, how many icons have been released into
icon_list, and the phase flags of the level state machine. -/
structure LevelState where
  score : ℤ
  lives : ℤ
  bonus_score : ℚ
  bonus_collection_order : String
  icons_deployed : Nat
  game_is_active : Bool
  level_complete : Bool
  game_over : Bool
  lost_a_life : Bool
deriving Repr, DecidableEq

/-- Brick.change_properties (assets.py lines 730-765).  For a breakable
brick whose latch is clear: set the latch, advance the texture stage or
remove the brick, add the brick score to the window score, append the
bonus letter when present, and deploy the attached icon once.  Unbreakable
bricks only replay their hit sound, which carries no state. -/
def Brick.change_properties (br : BrickState) (lvl : LevelState) :
    BrickState × LevelState :=
  if br.is_breakable = true ∧ br.has_been_hit = false then
    ((if br.cur_texture_index + 1 < br.num_textures then
        if br.has_icon then
          { br with has_been_hit := true, cur_texture_index := br.cur_texture_index + 1,
                    has_icon := false }
        else
          { br with has_been_hit := true, cur_texture_index := br.cur_texture_index + 1 }
      else
        if br.has_icon then
          { br with has_been_hit := true, cur_texture_index := br.cur_texture_index + 1,
                    removed := true, has_icon := false }
        else
          { br with has_been_hit := true, cur_texture_index := br.cur_texture_index + 1,
                    removed := true }),
     (let lvl1 : LevelState := { lvl with score := lvl.score + br.score }
      let lvl2 : LevelState :=
        if br.letter ≠ "" then
          { lvl1 with bonus_collection_order := lvl1.bonus_collection_order ++ br.letter }
        else lvl1
      if br.has_icon then { lvl2 with icons_deployed := lvl2.icons_deployed + 1 } else lvl2))
  else (br, lvl)

/-- Brick.update (assets.py lines 720-728): the latch is cleared exactly
when it is set and the brick currently overlaps no active ball and no
bullet.  The two collides_with_list queries against ball_list and
bullet_list are library calls and enter as the single flag
overlaps_ball_or_bullet. -/
def Brick.update (overlaps_ball_or_bullet : Bool) (br : BrickState) : BrickState :=
  if br.has_been_hit = true ∧ overlaps_ball_or_bullet = false then
    { br with has_been_hit := false }
  else br

/-- Level.level_is_complete (levels.py lines 581-598): stop the game, mark
the level complete, set the base bonus from the bonus letter accumulator
(5000 for the exact string BONUS, 2000 for any other accumulator of
length five) and add 100 per remaining life. -/
def Level.level_is_complete (lvl : LevelState) : LevelState :=
  let a : LevelState := { lvl with game_is_active := false, level_complete := true }
  let c : LevelState :=
    if a.bonus_collection_order.length = 5 then
      if a.bonus_collection_order = "BONUS" then { a with bonus_score := 5000 }
      else { a with bonus_score := 2000 }
    else a
  { c with bonus_score := c.bonus_score + (c.lives : ℚ) * 100 }

/-- Level.lose_a_life (levels.py lines 600-614): stop the game, decrement
the window lives, and flag game over when they reach zero, otherwise flag
the lost-a-life pause. -/
def Level.lose_a_life (lvl : LevelState) : LevelState :=
  let a : LevelState := { lvl with game_is_active := false, lives := lvl.lives - 1 }
  if a.lives = 0 then { a with game_over := true } else { a with lost_a_life := true }

/-- Which of the two terminal calls an active tick of Level.on_update makes. -/
inductive TickCall where
  | levelCompleteCall : TickCall
  | loseLifeCall : TickCall
  | noCall : TickCall
deriving Repr, DecidableEq

/-- The win and loss check at the end of the active branch of
Level.on_update (levels.py lines 655-668): when game_is_active holds, an
empty breakable_brick_list triggers level_is_complete; only otherwise
does an empty ball_list trigger lose_a_life.  The two emptiness tests,
evaluated after the sprite list updates of the tick, enter as flags. -/
def Level.win_loss_check (lvl : LevelState) (bricksEmpty ballsEmpty : Bool) :
    LevelState × TickCall :=
  if lvl.game_is_active = true then
    if bricksEmpty then (Level.level_is_complete lvl, TickCall.levelCompleteCall)
    else if ballsEmpty then (Level.lose_a_life lvl, TickCall.loseLifeCall)
    else (lvl, TickCall.noCall)
  else (lvl, TickCall.noCall)

/-- The deflection loop of InvinciBall.collides_with_brick_moving_horizontally
(assets.py lines 438-449): walk the hit list, and at the first brick that
is unbreakable and not a safety barrier snap the leading edge to the brick
and negate change_x, then break.  All other bricks are passed through. -/
def invinci_scan_x : List BrickState → BallState → BallState
  | [], b => b
  | brick :: rest, b =>
    if brick.is_breakable = false ∧ brick.is_safety_barrier = false then
      if b.change_x > 0 then
        { b.set_right brick.left with change_x := -b.change_x }
      else
        { b.set_left brick.right with change_x := -b.change_x }
    else invinci_scan_x rest b

/-- The deflection loop of InvinciBall.collides_with_brick_moving_vertically
(assets.py lines 464-475): at the first brick that is unbreakable or a
safety barrier snap the leading edge and negate change_y, then break. -/
def invinci_scan_y : List BrickState → BallState → BallState
  | [], b => b
  | brick :: rest, b =>
    if brick.is_breakable = false ∨ brick.is_safety_barrier = true then
      if b.change_y > 0 then
        { b.set_top brick.bottom with change_y := -b.change_y }
      else
        { b.set_bottom brick.top with change_y := -b.change_y }
    else invinci_scan_y rest b

/-- The side-effect loop shared by both InvinciBall collision methods
(assets.py lines 452-454 and 478-480, with level not None): call
change_properties on every brick of the hit list, in order, threading the
level state through the calls. -/
def hit_all : List BrickState → LevelState → List BrickState × LevelState
  | [], lvl => ([], lvl)
  | br :: rest, lvl =>
    ((Brick.change_properties br lvl).1 ::
       (hit_all rest (Brick.change_properties br lvl).2).1,
     (hit_all rest (Brick.change_properties br lvl).2).2)

/-- InvinciBall.collides_with_brick_moving_horizontally (assets.py lines
431-454).  The hit list parameter is the result of the arcade library call
collides_with_list, the bricks currently overlapping the ball. -/
def InvinciBall.collides_with_brick_moving_horizontally
    (hit_list : List BrickState) (b : BallState) (lvl : LevelState) :
    BallState × List BrickState × LevelState :=
  (invinci_scan_x hit_list b, hit_all hit_list lvl)

/-- InvinciBall.collides_with_brick_moving_vertically (assets.py lines
456-480). -/
def InvinciBall.collides_with_brick_moving_vertically
    (hit_list : List BrickState) (b : BallState) (lvl : LevelState) :
    BallState × List BrickState × LevelState :=
  (invinci_scan_y hit_list b, hit_all hit_list lvl)

/-- The slice of paddle state read and written by the embedded operations
(Paddle.__init__, assets.py lines 555-558). -/
structure PaddleState where
  is_magnetic : Bool
  invincible_balls : ℤ
  split_balls : ℤ
deriving Repr, DecidableEq

/-- The invincibility step of Ball.change_properties (assets.py lines
336-340), run when a ball lands on the paddle top.  The convert_to call
builds a ball of the other kind at the same position and replaces the
source ball; it is modelled by toggling is_invincible, and the returned
flag records whether a conversion happened at all. -/
def ball_invincibility_step (b : BallState) (pad : PaddleState) :
    BallState × PaddleState × Bool :=
  if pad.invincible_balls > 0 then
    if b.is_invincible = false then
      ({ b with is_invincible := true },
       { pad with invincible_balls := pad.invincible_balls - 1 }, true)
    else
      (b, { pad with invincible_balls := pad.invincible_balls - 1 }, false)
  else
    if b.is_invincible = true then
      ({ b with is_invincible := false }, pad, true)
    else (b, pad, false)

/-- A ball on the magnetic ball list of the paddle, for the loop of
InvinciBallIcon.activate_icon_property.  The id stands for Python object
identity, so that list.remove deletes exactly the intended element. -/
structure MBall where
  id : Nat
  is_invincible : Bool
deriving Repr, DecidableEq

/-- Python list.remove: delete the first element equal to the argument. -/
def remove_first (x : MBall) : List MBall → List MBall
  | [] => []
  | y :: ys => if y = x then ys else y :: remove_first x ys

/-- The loop of InvinciBallIcon.activate_icon_property (assets.py lines
1438-1443) with the index semantics of a Python for statement over a list
that the body mutates: the iterator keeps a cursor i and yields lst[i]
while i is in range.  For a non-invincible ball the body appends the new
MagneticInviciBall (fresh id, invincible), removes the current ball, and
decrements invincible_balls.  The fuel argument only bounds the number of
iterations; the list length never changes inside the body, so any fuel of
at least that length makes the recursion faithful. -/
def invinci_icon_loop : Nat → Nat → List MBall → ℤ → Nat → List MBall × ℤ
  | _, _, lst, charges, 0 => (lst, charges)
  | fresh, i, lst, charges, fuel + 1 =>
    if h : i < lst.length then
      if (lst.get ⟨i, h⟩).is_invincible = true then
        invinci_icon_loop fresh (i + 1) lst charges fuel
      else
        invinci_icon_loop (fresh + 1) (i + 1)
          (remove_first (lst.get ⟨i, h⟩) (lst ++ [{ id := fresh, is_invincible := true }]))
          (charges - 1) fuel
    else (lst, charges)

/-- InvinciBallIcon.activate_icon_property (assets.py lines 1434-1443):
add three invincibility charges, then run the conversion loop over the
magnetic ball list.  The fresh parameter supplies unused object ids. -/
def invinci_icon_activate (fresh : Nat) (lst : List MBall) (charges : ℤ) :
    List MBall × ℤ :=
  invinci_icon_loop fresh 0 lst (charges + 3) (lst.length + 1)

/-- One data row of the high score file, the namedtuple Entry of
get_high_scores (levels.py line 189); the datetime column is dropped by
the reader and does not enter the model. -/
structure ScoreEntry where
  name : String
  level : Nat
  score : ℤ
deriving Repr, DecidableEq

/-- The ten synthetic seed rows written by create_high_scores (levels.py
lines 170-180): for i from 10 down to 1, even i gives Freddy at level i/2
and odd i gives BBB at level (i+1)/2, both with score i*5000. -/
def create_high_scores_rows : List ScoreEntry :=
  (List.range 10).map (fun k =>
    if (10 - k) % 2 = 0 then
      { name := "Freddy", level := (10 - k) / 2, score := ((10 - k : Nat) : ℤ) * 5000 }
    else
      { name := "BBB", level := (10 - k + 1) / 2, score := ((10 - k : Nat) : ℤ) * 5000 })

/-- The high score file as the reader sees it: the header line followed by
the parsed data rows. -/
structure HighScoresFile where
  header : String
  rows : List ScoreEntry
deriving Repr, DecidableEq

/-- The file produced by create_high_scores (levels.py lines 170-180). -/
def create_high_scores_file : HighScoresFile :=
  { header := "name,level,score,datetime", rows := create_high_scores_rows }

/-- The descending order on entries used by the final sorted call of
get_high_scores: sorted by score, reverse true. -/
def score_ge (a b : ScoreEntry) : Prop := b.score ≤ a.score

instance : DecidableRel score_ge := fun a b => inferInstanceAs (Decidable (b.score ≤ a.score))

/-- Insertion into a list kept in descending score order. -/
def insert_desc (e : ScoreEntry) : List ScoreEntry → List ScoreEntry
  | [] => [e]
  | x :: xs => if x.score ≤ e.score then e :: x :: xs else x :: insert_desc e xs

/-- Comparison sort realising the Python call sorted by score with reverse
true, as an insertion sort over the same ordering contract. -/
def sort_desc : List ScoreEntry → List ScoreEntry
  | [] => []
  | x :: xs => insert_desc x (sort_desc xs)

/-- The create-if-missing step of get_high_scores (levels.py lines
195-197): a missing file is replaced by the freshly created one. -/
def file_or_created : Option HighScoresFile → HighScoresFile
  | none => create_high_scores_file
  | some f => f

/-- get_high_scores (levels.py lines 183-204): create the file when it is
absent, skip the header, parse the rows, and return the first ten of the
rows sorted by score in descending order. -/
def get_high_scores (file : Option HighScoresFile) : List ScoreEntry :=
  ((sort_desc (file_or_created file).rows).take 10)

/-- Inserting preserves the multiset of entries. -/
theorem insert_desc_perm (e : ScoreEntry) (l : List ScoreEntry) :
    (insert_desc e l).Perm (e :: l) := by
  induction l with
  | nil => simp [insert_desc]
  | cons x xs ih =>
    unfold insert_desc
    split_ifs
    · exact List.Perm.refl _
    · exact ((ih.cons x).trans (List.Perm.swap e x xs))

/-- Sorting preserves the multiset of entries. -/
theorem sort_desc_perm (l : List ScoreEntry) : (sort_desc l).Perm l := by
  induction l with
  | nil => exact List.Perm.refl _
  | cons x xs ih => exact (insert_desc_perm x (sort_desc xs)).trans (ih.cons x)

/-- Inserting into a descending list keeps it descending. -/
theorem insert_desc_sorted (e : ScoreEntry) (l : List ScoreEntry)
    (h : List.Sorted score_ge l) : List.Sorted score_ge (insert_desc e l) := by
  induction l with
  | nil => simp [insert_desc, List.Sorted]
  | cons x xs ih =>
    rw [List.sorted_cons] at h
    unfold insert_desc
    split_ifs with hc
    · rw [List.sorted_cons]
      refine ⟨?_, ?_⟩
      · intro b hb
        rcases List.mem_cons.mp hb with hb | hb
        · subst hb; exact hc
        · exact le_trans (h.1 b hb) hc
      · rw [List.sorted_cons]; exact h
    · rw [List.sorted_cons]
      refine ⟨?_, ih h.2⟩
      intro b hb
      rcases List.mem_cons.mp ((insert_desc_perm e xs).mem_iff.mp hb) with hb | hb
      · subst hb; exact le_of_not_le hc
      · exact h.1 b hb

/-- The sort produces a descending list. -/
theorem sort_desc_sorted (l : List ScoreEntry) : List.Sorted score_ge (sort_desc l) := by
  induction l with
  | nil => simp [sort_desc, List.Sorted]
  | cons x xs ih => exact insert_desc_sorted x (sort_desc xs) ih

/-- C3: every operation of the source that mutates a ball speed ends in
set_velocity, whose clamp leaves the stored ball_speed inside
[BALL_MIN_SPEED, BALL_MAX_SPEED] = [550, 850]: the paddle bounce
(change_velocity), both side-of-paddle hits, change_speed for any action
(covering the speed-up and slow-down icons), ball construction (covering
conversion), and the shorten-icon drop. -/
theorem ball_speed_always_clamped
    (c s cx cy w h : ℚ) (p : PaddleGeom) (b : BallState) (action : String) (inv : Bool) :
    (BALL_MIN_SPEED ≤ (change_velocity c s p b).ball_speed ∧
      (change_velocity c s p b).ball_speed ≤ BALL_MAX_SPEED) ∧
    (BALL_MIN_SPEED ≤ (paddle_side_hit_left c s b).ball_speed ∧
      (paddle_side_hit_left c s b).ball_speed ≤ BALL_MAX_SPEED) ∧
    (BALL_MIN_SPEED ≤ (paddle_side_hit_right c s b).ball_speed ∧
      (paddle_side_hit_right c s b).ball_speed ≤ BALL_MAX_SPEED) ∧
    (BALL_MIN_SPEED ≤ (change_speed c s action b).ball_speed ∧
      (change_speed c s action b).ball_speed ≤ BALL_MAX_SPEED) ∧
    (BALL_MIN_SPEED ≤ (ball_init c s cx cy w h inv).ball_speed ∧
      (ball_init c s cx cy w h inv).ball_speed ≤ BALL_MAX_SPEED) ∧
    (BALL_MIN_SPEED ≤ (shorten_icon_drop c s b).ball_speed ∧
      (shorten_icon_drop c s b).ball_speed ≤ BALL_MAX_SPEED) := by
  refine ⟨?_, ?_, ?_, ?_, ?_, ?_⟩ <;> exact clamp_speed_mem _

/-- Direction restoration of change_speed: when the freshly recomputed
component is nonzero, sign_fix gives it the sign of the old component. -/
theorem sign_fix_sign (o n : ℚ) (hn : n ≠ 0) :
    (0 < o → 0 < sign_fix o n) ∧ (o < 0 → sign_fix o n < 0) := by
  unfold sign_fix
  constructor
  · intro ho
    split_ifs with hcond
    · rcases hcond with ⟨h1, _⟩ | ⟨_, h2⟩
      · linarith
      · linarith
    · push_neg at hcond
      exact lt_of_le_of_ne (hcond.2 ho) (Ne.symm hn)
  · intro ho
    split_ifs with hcond
    · rcases hcond with ⟨_, h2⟩ | ⟨h1, _⟩
      · linarith
      · linarith
    · push_neg at hcond
      exact lt_of_le_of_ne (hcond.1 ho) hn

/-- Sign restoration as a pair of equivalences. -/
theorem sign_fix_sign_iff (o n : ℚ) (ho : o ≠ 0) (hn : n ≠ 0) :
    (0 < o ↔ 0 < sign_fix o n) ∧ (o < 0 ↔ sign_fix o n < 0) := by
  rcases lt_or_gt_of_ne ho with h | h
  · have hneg := (sign_fix_sign o n hn).2 h
    constructor
    · constructor
      · intro hpos; linarith
      · intro hpos; linarith
    · constructor
      · intro _; exact hneg
      · intro _; exact h
  · have hpos := (sign_fix_sign o n hn).1 h
    constructor
    · constructor
      · intro _; exact hpos
      · intro _; exact h
    · constructor
      · intro hneg; linarith
      · intro hneg; linarith

/-- The recomputed change_x of change_speed before sign restoration. -/
theorem change_speed_change_x (c s : ℚ) (action : String) (b : BallState) :
    (change_speed c s action b).change_x =
      sign_fix b.change_x (clamp_speed (apply_speed_action action b).ball_speed * c) := rfl

/-- The recomputed change_y of change_speed before sign restoration. -/
theorem change_speed_change_y (c s : ℚ) (action : String) (b : BallState) :
    (change_speed c s action b).change_y =
      sign_fix b.change_y (clamp_speed (apply_speed_action action b).ball_speed * s) := rfl

/-- C7: change_speed adds the fixed increment 50 for the action increase
and subtracts the fixed decrement 50 for decrease, subject to the clamp,
and for a ball with nonzero change_x and change_y both direction signs
survive the call.  The parameters c and s are the cosine and sine values
of the stored angle; the float library never returns an exact zero for
the angles the game stores, which the two nonzero hypotheses record. -/
theorem change_speed_fixed_step_preserves_direction
    (c s : ℚ) (b : BallState) (hc : c ≠ 0) (hs : s ≠ 0)
    (hx : b.change_x ≠ 0) (hy : b.change_y ≠ 0) :
    (change_speed c s "increase" b).ball_speed = clamp_speed (b.ball_speed + 50) ∧
    (change_speed c s "decrease" b).ball_speed = clamp_speed (b.ball_speed - 50) ∧
    (0 < b.change_x ↔ 0 < (change_speed c s "increase" b).change_x) ∧
    (b.change_x < 0 ↔ (change_speed c s "increase" b).change_x < 0) ∧
    (0 < b.change_y ↔ 0 < (change_speed c s "increase" b).change_y) ∧
    (b.change_y < 0 ↔ (change_speed c s "increase" b).change_y < 0) ∧
    (0 < b.change_x ↔ 0 < (change_speed c s "decrease" b).change_x) ∧
    (b.change_x < 0 ↔ (change_speed c s "decrease" b).change_x < 0) ∧
    (0 < b.change_y ↔ 0 < (change_speed c s "decrease" b).change_y) ∧
    (b.change_y < 0 ↔ (change_speed c s "decrease" b).change_y < 0) := by
  have hnc : ∀ action : String,
      clamp_speed (apply_speed_action action b).ball_speed * c ≠ 0 :=
    fun action => mul_ne_zero (ne_of_gt (clamp_speed_pos _)) hc
  have hns : ∀ action : String,
      clamp_speed (apply_speed_action action b).ball_speed * s ≠ 0 :=
    fun action => mul_ne_zero (ne_of_gt (clamp_speed_pos _)) hs
  refine ⟨rfl, rfl, ?_, ?_, ?_, ?_, ?_, ?_, ?_, ?_⟩
  · rw [change_speed_change_x]; exact (sign_fix_sign_iff _ _ hx (hnc _)).1
  · rw [change_speed_change_x]; exact (sign_fix_sign_iff _ _ hx (hnc _)).2
  · rw [change_speed_change_y]; exact (sign_fix_sign_iff _ _ hy (hns _)).1
  · rw [change_speed_change_y]; exact (sign_fix_sign_iff _ _ hy (hns _)).2
  · rw [change_speed_change_x]; exact (sign_fix_sign_iff _ _ hx (hnc _)).1
  · rw [change_speed_change_x]; exact (sign_fix_sign_iff _ _ hx (hnc _)).2
  · rw [change_speed_change_y]; exact (sign_fix_sign_iff _ _ hy (hns _)).1
  · rw [change_speed_change_y]; exact (sign_fix_sign_iff _ _ hy (hns _)).2

/-- Sample ball for the change_speed witness. -/
def change_speed_sample_ball : BallState :=
  { center_x := 0, center_y := 0, width := 18, height := 18, velocity_angle := 45,
    ball_speed := 600, change_x := 1, change_y := -1, is_invincible := false }

/-- Witness for C7 at c = 1, s = 1 and a concrete ball of speed 600. -/
theorem change_speed_fixed_step_witness :
    (1 : ℚ) ≠ 0 ∧ change_speed_sample_ball.change_x ≠ 0 ∧
    change_speed_sample_ball.change_y ≠ 0 ∧
    (change_speed 1 1 "increase" change_speed_sample_ball).ball_speed =
      clamp_speed (change_speed_sample_ball.ball_speed + 50) ∧
    (0 < change_speed_sample_ball.change_x ↔
      0 < (change_speed 1 1 "increase" change_speed_sample_ball).change_x) :=
  ⟨by norm_num, by decide, by decide,
   (change_speed_fixed_step_preserves_direction 1 1 change_speed_sample_ball
     (by norm_num) (by norm_num) (by decide) (by decide)).1,
   (change_speed_fixed_step_preserves_direction 1 1 change_speed_sample_ball
     (by norm_num) (by norm_num) (by decide) (by decide)).2.2.1⟩

/-- Modelled from the amended reading of spec section 4.4: the middle zone
of the paddle has half-width 10 (the full middle width of the source is
20), so the left zone is d below W / 2 - 10, the middle zone is d up to
W / 2 + 10, and the right zone is beyond; the angle and speed formulas of
the spec are unchanged. -/
def bounce_formula_amended (p : PaddleGeom) (b : BallState) : BallState :=
  if b.center_x - p.left < p.width / 2 - 10 then
    { b with velocity_angle := 180 - min (25 + (b.center_x - p.left)) 70,
             ball_speed := b.ball_speed + (40 - (b.center_x - p.left)) }
  else if b.center_x - p.left ≤ p.width / 2 + 10 then
    { b with velocity_angle := if b.change_x > 0 then 55 else 125,
             ball_speed := b.ball_speed - 20 }
  else
    { b with velocity_angle := min (p.width - (b.center_x - p.left) + 25) 70,
             ball_speed := b.ball_speed + ((b.center_x - p.left) - p.width + 40) }

/-- C1 amended: the zone computation of Ball.change_velocity agrees with
the spec formula once the middle zone is given its source half-width 10,
in other words zone boundaries W / 2 - 10 and W / 2 + 10 instead of the
W / 2 - 5 and W / 2 + 5 written in the spec. -/
theorem bounce_zone_partition_amended (p : PaddleGeom) (b : BallState) :
    change_velocity_core p b = bounce_formula_amended p b := by
  unfold change_velocity_core bounce_formula_amended
  have h20 : p.width / 2 - 20 / 2 = p.width / 2 - 10 := by norm_num
  have h20b : p.width / 2 + 20 / 2 = p.width / 2 + 10 := by norm_num
  rw [h20, h20b]
  by_cases hL : b.center_x - p.left < p.width / 2 - 10
  · rw [if_pos hL, if_pos hL]
    congr 1
    rw [min_def]
    split_ifs <;> linarith
  · by_cases hR : b.center_x - p.left ≤ p.width / 2 + 10
    · rw [if_neg hL, if_neg hL, if_pos (⟨not_lt.mp hL, hR⟩ :
        p.width / 2 - 10 ≤ b.center_x - p.left ∧ b.center_x - p.left ≤ p.width / 2 + 10),
        if_pos hR]
      congr 1
      split_ifs <;> norm_num
    · rw [if_neg hL, if_neg hL,
        if_neg (fun hc : p.width / 2 - 10 ≤ b.center_x - p.left ∧
          b.center_x - p.left ≤ p.width / 2 + 10 => hR hc.2),
        if_neg hR]
      congr 1
      rw [min_def]
      split_ifs <;> linarith

/-- Paddle for the bounce counterexample: left edge 0, width 100. -/
def bounce_cex_paddle : PaddleGeom := { left := 0, width := 100 }

/-- Ball for the bounce counterexample: center at 42 along the paddle,
moving to the right with speed 600. -/
def bounce_cex_ball : BallState :=
  { center_x := 42, center_y := 40, width := 18, height := 18, velocity_angle := 45,
    ball_speed := 600, change_x := 1, change_y := 1, is_invincible := false }

/-- C1 counterexample: at paddle width 100 and offset d = 42 the claim
places the hit in the left zone, because 42 is below W / 2 - m / 2 = 45
with m = 10, and predicts angle 180 - min (25 + 42) 70 = 113 and a speed
change of 40 - 42; the code instead takes its middle branch, because 42
is not below W / 2 - 10 = 40, and produces angle 55 with a speed change
of -20. -/
theorem bounce_zone_partition_counterexample :
    (bounce_cex_ball.center_x - bounce_cex_paddle.left <
      bounce_cex_paddle.width / 2 - 10 / 2) ∧
    (change_velocity_core bounce_cex_paddle bounce_cex_ball).velocity_angle = 55 ∧
    (change_velocity_core bounce_cex_paddle bounce_cex_ball).ball_speed =
      bounce_cex_ball.ball_speed - 20 ∧
    (55 : ℚ) ≠ 180 - min (25 + (bounce_cex_ball.center_x - bounce_cex_paddle.left)) 70 ∧
    bounce_cex_ball.ball_speed - 20 ≠
      bounce_cex_ball.ball_speed + (40 - (bounce_cex_ball.center_x - bounce_cex_paddle.left)) := by
  refine ⟨by norm_num [bounce_cex_ball, bounce_cex_paddle],
    ?_, ?_,
    by norm_num [bounce_cex_ball, bounce_cex_paddle, min_def],
    by norm_num [bounce_cex_ball, bounce_cex_paddle]⟩
  · norm_num [change_velocity_core, bounce_cex_ball, bounce_cex_paddle]
  · norm_num [change_velocity_core, bounce_cex_ball, bounce_cex_paddle]

/-- The brick half of change_properties does not depend on the level
state. -/
theorem change_properties_fst_congr (br : BrickState) (l1 l2 : LevelState) :
    (Brick.change_properties br l1).1 = (Brick.change_properties br l2).1 := by
  unfold Brick.change_properties
  split_ifs <;> rfl

/-- The side-effect loop applies change_properties to every brick of the
hit list, in position: its brick output is the map of the brick half of
change_properties over the hit list. -/
theorem hit_all_fst (hits : List BrickState) (lvl lvl0 : LevelState) :
    (hit_all hits lvl).1 = hits.map (fun br => (Brick.change_properties br lvl0).1) := by
  induction hits generalizing lvl with
  | nil => rfl
  | cons br rest ih =>
    show (Brick.change_properties br lvl).1 ::
        (hit_all rest (Brick.change_properties br lvl).2).1 = _
    rw [List.map_cons, change_properties_fst_congr br lvl lvl0,
      ih (Brick.change_properties br lvl).2]

/-- The horizontal deflection loop negates change_x exactly when some
brick of the hit list is unbreakable and not a safety barrier. -/
theorem invinci_scan_x_flips_iff (hits : List BrickState) (b : BallState)
    (hx : b.change_x ≠ 0) :
    ((invinci_scan_x hits b).change_x = -b.change_x ↔
      ∃ br ∈ hits, br.is_breakable = false ∧ br.is_safety_barrier = false) := by
  induction hits with
  | nil =>
    simp only [invinci_scan_x]
    constructor
    · intro h
      exfalso
      apply hx
      linarith
    · rintro ⟨br, hmem, _⟩
      exact absurd hmem (List.not_mem_nil br)
  | cons brick rest ih =>
    by_cases hq : brick.is_breakable = false ∧ brick.is_safety_barrier = false
    · constructor
      · intro _
        exact ⟨brick, List.mem_cons_self _ _, hq⟩
      · intro _
        show (invinci_scan_x (brick :: rest) b).change_x = -b.change_x
        unfold invinci_scan_x
        rw [if_pos hq]
        split_ifs <;> rfl
    · unfold invinci_scan_x
      rw [if_neg hq, ih]
      constructor
      · rintro ⟨br, hmem, hcond⟩
        exact ⟨br, List.mem_cons_of_mem _ hmem, hcond⟩
      · rintro ⟨br, hmem, hcond⟩
        rcases List.mem_cons.mp hmem with h | h
        · exact absurd (h ▸ hcond) hq
        · exact ⟨br, h, hcond⟩

/-- The vertical deflection loop negates change_y exactly when some brick
of the hit list is unbreakable or a safety barrier. -/
theorem invinci_scan_y_flips_iff (hits : List BrickState) (b : BallState)
    (hy : b.change_y ≠ 0) :
    ((invinci_scan_y hits b).change_y = -b.change_y ↔
      ∃ br ∈ hits, br.is_breakable = false ∨ br.is_safety_barrier = true) := by
  induction hits with
  | nil =>
    simp only [invinci_scan_y]
    constructor
    · intro h
      exfalso
      apply hy
      linarith
    · rintro ⟨br, hmem, _⟩
      exact absurd hmem (List.not_mem_nil br)
  | cons brick rest ih =>
    by_cases hq : brick.is_breakable = false ∨ brick.is_safety_barrier = true
    · constructor
      · intro _
        exact ⟨brick, List.mem_cons_self _ _, hq⟩
      · intro _
        show (invinci_scan_y (brick :: rest) b).change_y = -b.change_y
        unfold invinci_scan_y
        rw [if_pos hq]
        split_ifs <;> rfl
    · unfold invinci_scan_y
      rw [if_neg hq, ih]
      constructor
      · rintro ⟨br, hmem, hcond⟩
        exact ⟨br, List.mem_cons_of_mem _ hmem, hcond⟩
      · rintro ⟨br, hmem, hcond⟩
        rcases List.mem_cons.mp hmem with h | h
        · exact absurd (h ▸ hcond) hq
        · exact ⟨br, h, hcond⟩

/-- C2 amended: for an invincible ball with nonzero velocity components,
the vertical step negates change_y exactly when some overlapping brick is
unbreakable or a safety barrier, while the horizontal step negates
change_x exactly when some overlapping brick is unbreakable and not a
safety barrier (a safety barrier never deflects the ball horizontally);
in both steps every overlapping brick receives the change_properties side
effect. -/
theorem invinci_brick_deflection_amended
    (hits : List BrickState) (b : BallState) (lvl : LevelState)
    (hx : b.change_x ≠ 0) (hy : b.change_y ≠ 0) :
    ((InvinciBall.collides_with_brick_moving_horizontally hits b lvl).1.change_x =
        -b.change_x ↔
      ∃ br ∈ hits, br.is_breakable = false ∧ br.is_safety_barrier = false) ∧
    ((InvinciBall.collides_with_brick_moving_vertically hits b lvl).1.change_y =
        -b.change_y ↔
      ∃ br ∈ hits, br.is_breakable = false ∨ br.is_safety_barrier = true) ∧
    (InvinciBall.collides_with_brick_moving_horizontally hits b lvl).2.1 =
      hits.map (fun br => (Brick.change_properties br lvl).1) ∧
    (InvinciBall.collides_with_brick_moving_vertically hits b lvl).2.1 =
      hits.map (fun br => (Brick.change_properties br lvl).1) :=
  ⟨invinci_scan_x_flips_iff hits b hx, invinci_scan_y_flips_iff hits b hy,
   hit_all_fst hits lvl lvl, hit_all_fst hits lvl lvl⟩

/-- Unbreakable brick for the invincible-ball witness. -/
def invinci_wit_brick : BrickState :=
  { center_x := 120, center_y := 42, width := 75, height := 25,
    is_breakable := false, has_been_hit := false, is_safety_barrier := false,
    cur_texture_index := 0, num_textures := 1, score := 0, letter := "",
    has_icon := false, removed := false }

/-- Ball for the invincible-ball witness. -/
def invinci_wit_ball : BallState :=
  { center_x := 100, center_y := 42, width := 18, height := 18, velocity_angle := 45,
    ball_speed := 600, change_x := 3, change_y := -2, is_invincible := true }

/-- Level for the invincible-ball witness. -/
def invinci_wit_level : LevelState :=
  { score := 0, lives := 3, bonus_score := 0, bonus_collection_order := "",
    icons_deployed := 0, game_is_active := true, level_complete := false,
    game_over := false, lost_a_life := false }

/-- Witness for the amended C2 at a one-brick hit list. -/
theorem invinci_brick_deflection_witness :
    invinci_wit_ball.change_x ≠ 0 ∧ invinci_wit_ball.change_y ≠ 0 ∧
    ((InvinciBall.collides_with_brick_moving_horizontally [invinci_wit_brick]
        invinci_wit_ball invinci_wit_level).1.change_x = -invinci_wit_ball.change_x ↔
      ∃ br ∈ [invinci_wit_brick],
        br.is_breakable = false ∧ br.is_safety_barrier = false) :=
  ⟨by norm_num [invinci_wit_ball], by norm_num [invinci_wit_ball],
   (invinci_brick_deflection_amended [invinci_wit_brick] invinci_wit_ball
      invinci_wit_level (by norm_num [invinci_wit_ball])
      (by norm_num [invinci_wit_ball])).1⟩

/-- Safety barrier brick for the C2 counterexample, exactly as built by
the SafetyBarrier constructor (assets.py lines 1453-1464): it keeps the
default is_breakable = True of Brick.__init__ and sets is_safety_barrier. -/
def invinci_cex_barrier : BrickState :=
  { center_x := 575, center_y := 42, width := 1080, height := 2,
    is_breakable := true, has_been_hit := false, is_safety_barrier := true,
    cur_texture_index := 0, num_textures := 0, score := 0, letter := "",
    has_icon := false, removed := false }

/-- Invincible ball moving right for the C2 counterexample. -/
def invinci_cex_ball : BallState :=
  { center_x := 100, center_y := 42, width := 18, height := 18, velocity_angle := 45,
    ball_speed := 600, change_x := 5, change_y := -5, is_invincible := true }

/-- C2 counterexample: in a horizontal axis-resolution step whose hit set
holds exactly one safety barrier, the claim asserts that change_x is
negated, because the first qualifying brick of the hit set is a safety
barrier; the code leaves change_x untouched, since its horizontal
condition demands an unbreakable non-barrier brick. -/
theorem invinci_brick_deflection_counterexample :
    invinci_cex_barrier.is_safety_barrier = true ∧
    invinci_cex_ball.change_x ≠ 0 ∧
    (InvinciBall.collides_with_brick_moving_horizontally [invinci_cex_barrier]
        invinci_cex_ball invinci_wit_level).1.change_x = invinci_cex_ball.change_x ∧
    (InvinciBall.collides_with_brick_moving_horizontally [invinci_cex_barrier]
        invinci_cex_ball invinci_wit_level).1.change_x ≠ -invinci_cex_ball.change_x := by
  refine ⟨rfl, by norm_num [invinci_cex_ball], ?_, ?_⟩
  · show (invinci_scan_x [invinci_cex_barrier] invinci_cex_ball).change_x = _
    norm_num [invinci_scan_x, invinci_cex_barrier]
  · show (invinci_scan_x [invinci_cex_barrier] invinci_cex_ball).change_x ≠ _
    norm_num [invinci_scan_x, invinci_cex_barrier, invinci_cex_ball]

/-- A brick whose latch is set is left untouched by change_properties,
and so is the level state. -/
theorem change_properties_latched (br : BrickState) (lvl : LevelState)
    (h : br.has_been_hit = true) : Brick.change_properties br lvl = (br, lvl) := by
  unfold Brick.change_properties
  rw [if_neg]
  rintro ⟨_, hfalse⟩
  rw [h] at hfalse
  simp at hfalse

/-- For a latched brick, Brick.update leaves the latch equal to the
overlap flag: it clears it exactly when no overlap remains. -/
theorem brick_update_latch (br : BrickState) (h : br.has_been_hit = true) (ov : Bool) :
    (Brick.update ov br).has_been_hit = ov := by
  unfold Brick.update
  cases ov
  · rw [if_pos ⟨h, rfl⟩]
  · rw [if_neg]
    · exact h
    · rintro ⟨_, hf⟩
      simp at hf

/-- C4: a breakable single-stage brick with a clear latch is awarded
exactly once: the first change_properties call sets the latch, removes
the brick and adds exactly its score to the level score; while the latch
is set, further change_properties calls change neither the brick nor the
level; and Brick.update clears the latch exactly when the brick no
longer overlaps any active ball or bullet. -/
theorem brick_single_award (br : BrickState) (lvl : LevelState)
    (hb : br.is_breakable = true) (hh : br.has_been_hit = false)
    (hn : br.num_textures = 1) (hi : br.cur_texture_index = 0) :
    (Brick.change_properties br lvl).1.has_been_hit = true ∧
    (Brick.change_properties br lvl).1.removed = true ∧
    (Brick.change_properties br lvl).2.score = lvl.score + br.score ∧
    (∀ lvl2 : LevelState,
      Brick.change_properties (Brick.change_properties br lvl).1 lvl2 =
        ((Brick.change_properties br lvl).1, lvl2)) ∧
    (∀ ov : Bool,
      (Brick.update ov (Brick.change_properties br lvl).1).has_been_hit = ov) := by
  have hlatch : (Brick.change_properties br lvl).1.has_been_hit = true := by
    unfold Brick.change_properties
    rw [if_pos ⟨hb, hh⟩]
    split_ifs <;> rfl
  have hlt : ¬ (br.cur_texture_index + 1 < br.num_textures) := by
    rw [hn, hi]
    omega
  refine ⟨hlatch, ?_, ?_, fun lvl2 => change_properties_latched _ lvl2 hlatch,
    fun ov => brick_update_latch _ hlatch ov⟩
  · unfold Brick.change_properties
    rw [if_pos ⟨hb, hh⟩, if_neg hlt]
    split_ifs <;> rfl
  · unfold Brick.change_properties
    rw [if_pos ⟨hb, hh⟩]
    split_ifs <;> rfl

/-- Sample one-stage brick for the C4 witness. -/
def award_wit_brick : BrickState :=
  { center_x := 120, center_y := 700, width := 75, height := 25,
    is_breakable := true, has_been_hit := false, is_safety_barrier := false,
    cur_texture_index := 0, num_textures := 1, score := 100, letter := "",
    has_icon := false, removed := false }

/-- Sample level for the C4 witness. -/
def award_wit_level : LevelState :=
  { score := 400, lives := 3, bonus_score := 0, bonus_collection_order := "",
    icons_deployed := 0, game_is_active := true, level_complete := false,
    game_over := false, lost_a_life := false }

/-- Witness for C4 at a concrete brick of score 100 on a level score 400. -/
theorem brick_single_award_witness :
    award_wit_brick.is_breakable = true ∧ award_wit_brick.has_been_hit = false ∧
    (Brick.change_properties award_wit_brick award_wit_level).2.score =
      award_wit_level.score + award_wit_brick.score ∧
    Brick.change_properties
        (Brick.change_properties award_wit_brick award_wit_level).1 award_wit_level =
      ((Brick.change_properties award_wit_brick award_wit_level).1, award_wit_level) :=
  ⟨rfl, rfl,
   (brick_single_award award_wit_brick award_wit_level rfl rfl rfl rfl).2.2.1,
   (brick_single_award award_wit_brick award_wit_level rfl rfl rfl rfl).2.2.2.1
     award_wit_level⟩

/-- C9: a ball that is already invincible landing on the paddle top while
invincibility charges remain is not converted, yet still consumes one
charge. -/
theorem invincible_landing_consumes_charge (b : BallState) (pad : PaddleState)
    (hinv : b.is_invincible = true) (hch : pad.invincible_balls > 0) :
    (ball_invincibility_step b pad).2.2 = false ∧
    (ball_invincibility_step b pad).1 = b ∧
    (ball_invincibility_step b pad).2.1.invincible_balls =
      pad.invincible_balls - 1 := by
  unfold ball_invincibility_step
  rw [if_pos hch, if_neg (by rw [hinv]; simp)]
  exact ⟨rfl, rfl, rfl⟩

/-- Sample invincible ball for the C9 witness. -/
def landing_wit_ball : BallState :=
  { center_x := 500, center_y := 50, width := 18, height := 18, velocity_angle := 305,
    ball_speed := 600, change_x := 3, change_y := -4, is_invincible := true }

/-- Sample paddle with two charges for the C9 witness. -/
def landing_wit_paddle : PaddleState :=
  { is_magnetic := false, invincible_balls := 2, split_balls := 0 }

/-- Witness for C9 at a paddle holding two charges. -/
theorem invincible_landing_witness :
    landing_wit_ball.is_invincible = true ∧ landing_wit_paddle.invincible_balls > 0 ∧
    (ball_invincibility_step landing_wit_ball landing_wit_paddle).2.2 = false ∧
    (ball_invincibility_step landing_wit_ball landing_wit_paddle).2.1.invincible_balls =
      landing_wit_paddle.invincible_balls - 1 :=
  ⟨rfl, by norm_num [landing_wit_paddle],
   (invincible_landing_consumes_charge landing_wit_ball landing_wit_paddle rfl
     (by norm_num [landing_wit_paddle])).1,
   (invincible_landing_consumes_charge landing_wit_ball landing_wit_paddle rfl
     (by norm_num [landing_wit_paddle])).2.2⟩

/-- C10: on an active tick whose breakable-brick collection is empty, the
update branch always calls level_is_complete and never lose_a_life, no
matter whether the ball collection is also empty; in particular the lives
counter is untouched. -/
theorem completion_precedes_life_loss (lvl : LevelState) (ballsEmpty : Bool)
    (hact : lvl.game_is_active = true) :
    (Level.win_loss_check lvl true ballsEmpty).2 = TickCall.levelCompleteCall ∧
    (Level.win_loss_check lvl true ballsEmpty).2 ≠ TickCall.loseLifeCall ∧
    (Level.win_loss_check lvl true ballsEmpty).1 = Level.level_is_complete lvl ∧
    (Level.win_loss_check lvl true ballsEmpty).1.lives = lvl.lives := by
  unfold Level.win_loss_check
  rw [if_pos hact, if_pos rfl]
  refine ⟨rfl, by simp, rfl, ?_⟩
  show (Level.level_is_complete lvl).lives = lvl.lives
  simp only [Level.level_is_complete]
  split_ifs <;> rfl

/-- Sample active level for the C10 witness. -/
def tick_wit_level : LevelState :=
  { score := 1000, lives := 2, bonus_score := 0, bonus_collection_order := "BO",
    icons_deployed := 1, game_is_active := true, level_complete := false,
    game_over := false, lost_a_life := false }

/-- Witness for C10 on a tick where both collections are empty. -/
theorem completion_precedes_life_loss_witness :
    tick_wit_level.game_is_active = true ∧
    (Level.win_loss_check tick_wit_level true true).2 = TickCall.levelCompleteCall ∧
    (Level.win_loss_check tick_wit_level true true).1.lives = tick_wit_level.lives :=
  ⟨rfl,
   (completion_precedes_life_loss tick_wit_level true rfl).1,
   (completion_precedes_life_loss tick_wit_level true rfl).2.2.2⟩

/-- C6: the level-complete bonus.  An accumulator equal to the exact
string BONUS yields base 5000; an accumulator holding the same five
letters in any other order yields base 2000; an accumulator of fewer
than five letters yields base 0 when the bonus score still carries its
initial value; every case then adds 100 per remaining life. -/
theorem level_complete_bonus (lvl : LevelState) (h0 : lvl.bonus_score = 0) :
    (lvl.bonus_collection_order = "BONUS" →
      (Level.level_is_complete lvl).bonus_score = 5000 + (lvl.lives : ℚ) * 100) ∧
    (lvl.bonus_collection_order.toList.Perm "BONUS".toList ∧
        lvl.bonus_collection_order ≠ "BONUS" →
      (Level.level_is_complete lvl).bonus_score = 2000 + (lvl.lives : ℚ) * 100) ∧
    (lvl.bonus_collection_order.length < 5 →
      (Level.level_is_complete lvl).bonus_score = (lvl.lives : ℚ) * 100) := by
  refine ⟨?_, ?_, ?_⟩
  · intro hB
    have hlen : lvl.bonus_collection_order.length = 5 := by rw [hB]; rfl
    simp only [Level.level_is_complete]
    rw [if_pos hlen, if_pos hB]
  · rintro ⟨hperm, hne⟩
    have hlen : lvl.bonus_collection_order.length = 5 := by
      have h := hperm.length_eq
      have h2 : lvl.bonus_collection_order.length =
          lvl.bonus_collection_order.toList.length := rfl
      rw [h2, h]
      rfl
    simp only [Level.level_is_complete]
    rw [if_pos hlen, if_neg hne]
  · intro hlt
    have hne : ¬ lvl.bonus_collection_order.length = 5 := by omega
    simp only [Level.level_is_complete]
    rw [if_neg hne]
    show lvl.bonus_score + (lvl.lives : ℚ) * 100 = (lvl.lives : ℚ) * 100
    rw [h0, zero_add]

/-- Sample completed level for the C6 witness: all letters in order,
three lives left. -/
def bonus_wit_level : LevelState :=
  { score := 9000, lives := 3, bonus_score := 0, bonus_collection_order := "BONUS",
    icons_deployed := 0, game_is_active := true, level_complete := false,
    game_over := false, lost_a_life := false }

/-- Sample completed level with the letters out of order. -/
def bonus_wit_level_shuffled : LevelState :=
  { bonus_wit_level with bonus_collection_order := "BONSU" }

/-- Witness for C6: the in-order accumulator gives 5000 + 300 and the
shuffled accumulator gives 2000 + 300. -/
theorem level_complete_bonus_witness :
    bonus_wit_level.bonus_score = 0 ∧
    bonus_wit_level.bonus_collection_order = "BONUS" ∧
    (Level.level_is_complete bonus_wit_level).bonus_score =
      5000 + (bonus_wit_level.lives : ℚ) * 100 ∧
    (Level.level_is_complete bonus_wit_level_shuffled).bonus_score =
      2000 + (bonus_wit_level_shuffled.lives : ℚ) * 100 :=
  ⟨rfl, rfl,
   (level_complete_bonus bonus_wit_level rfl).1 rfl,
   (level_complete_bonus bonus_wit_level_shuffled rfl).2.1
     ⟨by decide, by decide⟩⟩

/-- C5 evaluation: activating the invincible-ball icon over a paddle
holding two non-invincible magnetic balls (ids 0 and 1, zero charges)
converts only the first one.  The body removes the current ball from the
list being iterated, so the Python iterator skips the next element: the
resulting list still holds ball 1 non-invincible next to the new
invincible ball 2, and the charge counter ends at 3 - 1 = 2. -/
theorem invinci_icon_skips_second_ball :
    invinci_icon_activate 2
        [{ id := 0, is_invincible := false }, { id := 1, is_invincible := false }] 0 =
      ([{ id := 1, is_invincible := false }, { id := 2, is_invincible := true }], 2) ∧
    ({ id := 1, is_invincible := false } : MBall) ∈
      (invinci_icon_activate 2
        [{ id := 0, is_invincible := false }, { id := 1, is_invincible := false }] 0).1 ∧
    ({ id := 1, is_invincible := false } : MBall).is_invincible = false := by
  refine ⟨by decide, by decide, rfl⟩

/-- C8: get_high_scores returns at most ten entries, sorted by score in
descending order; the sort is a permutation of the data rows of the file
it read (the stored file, or the freshly created one when the file was
absent); and the created file carries the header row and exactly ten
synthetic seed entries. -/
theorem high_scores_top_ten_sorted (file : Option HighScoresFile) :
    (get_high_scores file).length ≤ 10 ∧
    List.Sorted score_ge (get_high_scores file) ∧
    (sort_desc (file_or_created file).rows).Perm (file_or_created file).rows ∧
    get_high_scores file = (sort_desc (file_or_created file).rows).take 10 ∧
    file_or_created none = create_high_scores_file ∧
    create_high_scores_file.header = "name,level,score,datetime" ∧
    create_high_scores_file.rows.length = 10 := by
  refine ⟨?_, ?_, sort_desc_perm _, rfl, rfl, rfl, by decide⟩
  · show ((sort_desc (file_or_created file).rows).take 10).length ≤ 10
    rw [List.length_take]
    exact min_le_left _ _
  · show List.Sorted score_ge ((sort_desc (file_or_created file).rows).take 10)
    exact List.Pairwise.sublist (List.take_sublist _ _)
      (sort_desc_sorted (file_or_created file).rows)
